import Mathlib

/-!
Verification of the Duckity SDK core (duckity-dev/sdks): the proof-of-work
puzzle engine, solution encoding, the worker offload protocol, and the wasm
initialization glue.

The puzzle engine itself (`Challenge.solve`, `Solution.encode`,
`Solution.raw_size`) is implemented in the Rust crate compiled to
`duckity_bg.wasm`; only the generated binding glue (`src/wasm/pkg/duckity.js`,
`duckity.d.ts`) and its callers are present, so the engine is modelled from the
specification (spec sections 3, 4.1, 4.2). The worker protocol
(`src/wasm/js/src/worker.ts`), the client facade (`src/wasm/js/src/duckity.ts`)
and the wasm init functions (`src/wasm/pkg/duckity.js`) are embedded from their
TypeScript/JavaScript sources.
-/

namespace Duckity

/-! ## Data model (spec section 3, `duckity.d.ts`) -/

/-- Modelled from the spec: a Challenge is an immutable server-issued value
with an opaque `seed` byte sequence, a numeric `difficulty` (required count of
leading zero bits of the digest, the predicate shape given in spec section
4.1), the `appId` and `profileCode` identifiers it was issued for, and an
optional `expiresAt` validity bound. The wasm binary holding the real struct is
not in the sources; only `duckity.d.ts` declares the class. Bytes are
represented as naturals below 256. -/
structure Challenge where
  seed : List Nat
  difficulty : Nat
  appId : String
  profileCode : String
  expiresAt : Option Nat
deriving DecidableEq, Repr

/-- Modelled from the spec: a Solution pairs the discovered proof value (a
nonce, represented as a natural number) with a back-reference to the Challenge
it solves. -/
structure Solution where
  proof : Nat
  sourceChallenge : Challenge
deriving DecidableEq, Repr

/-! ## Puzzle engine (spec section 4.1, modelled: the wasm binary is absent) -/

/-- Modelled from the spec: number of leading zero bits of a single byte. -/
def byteLZ (b : Nat) : Nat :=
  if 128 ≤ b then 0
  else if 64 ≤ b then 1
  else if 32 ≤ b then 2
  else if 16 ≤ b then 3
  else if 8 ≤ b then 4
  else if 4 ≤ b then 5
  else if 2 ≤ b then 6
  else if 1 ≤ b then 7
  else 8

/-- Modelled from the spec: number of leading zero bits of a digest, read as a
big-endian byte sequence. -/
def leadingZeroBits : List Nat → Nat
  | [] => 0
  | b :: rest => if b = 0 then 8 + leadingZeroBits rest else byteLZ b

/-- Modelled from the spec: the difficulty predicate, "required count of
leading zero bits" of the digest (spec sections 4.1 and 8: difficulty 8 means
the digest's first byte is 0x00). -/
def satisfiesDifficulty (digestBytes : List Nat) (difficulty : Nat) : Bool :=
  difficulty ≤ leadingZeroBits digestBytes

/-- Modelled from the spec: the candidate proof value serialized as 8
little-endian bytes, appended to the seed before hashing. The exact width is
not observable from the available material; only that the proof is a nonce
with a fixed binary layout. -/
def proofBytes (p : Nat) : List Nat :=
  [p % 256, p / 256 % 256, p / 256 ^ 2 % 256, p / 256 ^ 3 % 256,
   p / 256 ^ 4 % 256, p / 256 ^ 5 % 256, p / 256 ^ 6 % 256, p / 256 ^ 7 % 256]

/-- Modelled from the spec: `verify(sourceChallenge, proof)` holds when
`digest(seed ++ proof)` satisfies the difficulty. The digest is the
server-agreed hash function, a pluggable parameter per spec section 9. -/
def verify (digest : List Nat → List Nat) (c : Challenge) (p : Nat) : Bool :=
  satisfiesDifficulty (digest (c.seed ++ proofBytes p)) c.difficulty

/-- Modelled from the spec: iterate candidates starting at `cand`, with `fuel`
attempts remaining; return the first satisfying candidate (if any) together
with the number of digest attempts actually performed. -/
def searchAux (digest : List Nat → List Nat) (seed : List Nat)
    (difficulty : Nat) : Nat → Nat → Option Nat × Nat
  | _, 0 => (none, 0)
  | cand, fuel + 1 =>
    if satisfiesDifficulty (digest (seed ++ proofBytes cand)) difficulty then
      (some cand, 1)
    else
      let r := searchAux digest seed difficulty (cand + 1) fuel
      (r.1, r.2 + 1)

/-- Errors of the solving layer (spec section 7). -/
inductive SolveError where
  | expired
  | unsatisfiable
deriving DecidableEq, Repr

/-- Outcome of a solve: the result plus the number of digest attempts the
search performed (for stating the "no search work" and "exactly the attempt
cap" properties). -/
structure SolveOutcome where
  result : Except SolveError Solution
  attempts : Nat
deriving Repr

/-- Modelled from the spec: `solve(challenge)`. If the validity window has
passed before solving starts, fail with `Expired` and do no search work;
otherwise iterate candidates from zero, capped at `maxAttempts`, returning a
Solution on success and `Unsatisfiable` when the bound is exhausted. `now` is
the model's clock at the moment solving starts. -/
def solve (digest : List Nat → List Nat) (maxAttempts now : Nat)
    (c : Challenge) : SolveOutcome :=
  let run : SolveOutcome :=
    match searchAux digest c.seed c.difficulty 0 maxAttempts with
    | (some p, n) => ⟨Except.ok ⟨p, c⟩, n⟩
    | (none, n) => ⟨Except.error SolveError.unsatisfiable, n⟩
  match c.expiresAt with
  | some e => if e < now then ⟨Except.error SolveError.expired, 0⟩ else run
  | none => run

/-! ## Solution encoding (spec section 4.2, modelled: the wasm binary is
absent; `duckity.js` lines 395-417 only forward to `wasm.solution_encode` and
`wasm.solution_raw_size`) -/

/-- The bytes of a string, one natural per character code. -/
def strBytes (s : String) : List Nat :=
  s.data.map Char.toNat

/-- Modelled from the spec: the fixed binary layout of a Solution before
encoding, combining the Challenge's identifying fields with the found proof
(spec section 4.2: "serialize a fixed binary layout combining enough of the
Challenge's identifying fields and the found proof"). The exact layout is not
observable from the available material. -/
def serialize (s : Solution) : List Nat :=
  strBytes s.sourceChallenge.appId ++ strBytes s.sourceChallenge.profileCode ++
    s.sourceChallenge.seed ++ proofBytes s.proof

/-- The URL-safe base64 alphabet (RFC 4648 section 5): `A`-`Z`, `a`-`z`,
`0`-`9`, `-`, `_`. -/
def b64Alphabet : List Char :=
  ['A', 'B', 'C', 'D', 'E', 'F', 'G', 'H', 'I', 'J', 'K', 'L', 'M',
   'N', 'O', 'P', 'Q', 'R', 'S', 'T', 'U', 'V', 'W', 'X', 'Y', 'Z',
   'a', 'b', 'c', 'd', 'e', 'f', 'g', 'h', 'i', 'j', 'k', 'l', 'm',
   'n', 'o', 'p', 'q', 'r', 's', 't', 'u', 'v', 'w', 'x', 'y', 'z',
   '0', '1', '2', '3', '4', '5', '6', '7', '8', '9', '-', '_']

/-- Character for a 6-bit group. -/
def b64Char (n : Nat) : Char :=
  b64Alphabet.getD n '_'

/-- Modelled from the spec: unpadded URL-safe base64 of a byte sequence.
Groups of three bytes become four characters; a trailing group of one or two
bytes becomes two or three characters with no `=` padding. -/
def b64urlEncode : List Nat → List Char
  | [] => []
  | [a] => [b64Char (a / 4 % 64), b64Char (a % 4 * 16)]
  | [a, b] =>
      [b64Char (a / 4 % 64), b64Char ((a % 4 * 16 + b / 16) % 64),
       b64Char (b % 16 * 4)]
  | a :: b :: c :: rest =>
      b64Char (a / 4 % 64) :: b64Char ((a % 4 * 16 + b / 16) % 64) ::
      b64Char ((b % 16 * 4 + c / 64) % 64) :: b64Char (c % 64) ::
      b64urlEncode rest

/-- Modelled from the spec: `Solution.encode()`, the serialized layout encoded
with the unpadded URL-safe base64 alphabet. -/
def encode (s : Solution) : String :=
  String.mk (b64urlEncode (serialize s))

/-- Modelled from the spec: `Solution.raw_size()`, the byte length of the
pre-encoding serialized form. -/
def raw_size (s : Solution) : Nat :=
  (serialize s).length

/-! ## Worker offload protocol (`src/wasm/js/src/worker.ts`) -/

/-- Request message posted to the worker (`worker.ts` lines 3-7). -/
structure ChallengeRequest where
  domain : String
  appId : String
  profileCode : String
deriving DecidableEq, Repr

/-- Embedding of the worker's `onmessage` pipeline (`worker.ts` lines 9-25):
fetch a challenge for `(domain, appId, profileCode)` through the client
created by `with_domain`, solve it, and encode the solution. Each step may
fail; the async handler has no catch, so a failure at any step rejects the
handler's promise, modelled as `Except.error`. The network fetch is an
external collaborator, passed as the `fetchChallenge` parameter. -/
def workerPipeline (digest : List Nat → List Nat) (maxAttempts now : Nat)
    (fetchChallenge : String → String → String → Except String Challenge)
    (req : ChallengeRequest) : Except String String :=
  match fetchChallenge req.domain req.appId req.profileCode with
  | Except.error e => Except.error e
  | Except.ok ch =>
    match (solve digest maxAttempts now ch).result with
    | Except.error SolveError.expired => Except.error "Expired"
    | Except.error SolveError.unsatisfiable => Except.error "Unsatisfiable"
    | Except.ok sol => Except.ok (encode sol)

/-- Events that can reach the parent's listeners on the `Worker` object. -/
inductive WorkerEvent where
  | message (data : String)
  | error (msg : String)
deriving DecidableEq, Repr

/-- Events the worker delivers to the parent `Worker` object for a given
pipeline outcome, per `worker.ts` lines 9-25 and the host event semantics: on
success the handler calls `self.postMessage(encoded)`, producing one `message`
event. On failure the exception thrown inside the `async` `onmessage` handler
rejects the handler's promise; a rejected promise inside a worker surfaces as
an `unhandledrejection` in the worker's own global scope, not as an `error`
event on the parent's `Worker` object (only uncaught synchronous exceptions
fire that), so no event reaches the parent. -/
def handlerEvents : Except String String → List WorkerEvent
  | Except.ok tok => [WorkerEvent.message tok]
  | Except.error _ => []

/-- State of the promise returned by `waitForMessage`. -/
inductive PromiseState where
  | pending
  | resolved (v : String)
  | rejected (e : String)
deriving DecidableEq, Repr

/-- Listener/promise state of `waitForMessage` (`worker.ts` lines 27-47):
which of the two handlers are still attached, and the promise's state. -/
structure WaitState where
  result : PromiseState
  successActive : Bool
  errorActive : Bool
deriving DecidableEq, Repr

/-- A promise settles only once; later calls to resolve/reject are no-ops. -/
def settle (s : PromiseState) (v : PromiseState) : PromiseState :=
  match s with
  | PromiseState.pending => v
  | _ => s

/-- One event dispatched against `waitForMessage`'s listeners (`worker.ts`
lines 29-45): the success handler resolves and removes itself only; the error
handler rejects and removes both handlers. -/
def waitStep (s : WaitState) (ev : WorkerEvent) : WaitState :=
  match ev with
  | WorkerEvent.message d =>
    if s.successActive then
      ⟨settle s.result (PromiseState.resolved d), false, s.errorActive⟩
    else s
  | WorkerEvent.error m =>
    if s.errorActive then
      ⟨settle s.result (PromiseState.rejected
        ("An error occurred while solving a Duckity challenge: " ++ m)),
       false, false⟩
    else s

/-- Final state of `waitForMessage`'s promise after the worker's events have
been dispatched: both listeners start attached and the promise pending. -/
def waitForMessage (events : List WorkerEvent) : PromiseState :=
  (events.foldl waitStep ⟨PromiseState.pending, true, true⟩).result

/-- End-to-end offload round trip for one request: the worker runs the
pipeline, the parent observes the resulting events through `waitForMessage`. -/
def offloadResult (digest : List Nat → List Nat) (maxAttempts now : Nat)
    (fetchChallenge : String → String → String → Except String Challenge)
    (req : ChallengeRequest) : PromiseState :=
  waitForMessage (handlerEvents (workerPipeline digest maxAttempts now
    fetchChallenge req))

/-! ## Client facade (`src/wasm/js/src/duckity.ts`) -/

/-- Embedding of `DuckityClient` (`duckity.ts` lines 3-13): the only state is
the `domain` string, defaulting to `quack.duckity.dev`. -/
structure DuckityClient where
  domain : String
deriving DecidableEq, Repr

/-- The default client of `new DuckityClient()`. -/
def DuckityClient.new : DuckityClient :=
  ⟨"quack.duckity.dev"⟩

/-- Worker-affecting actions the facade's `solve` performs, in order. -/
inductive FacadeAction where
  | createWorker
  | post (req : ChallengeRequest)
  | awaitResponse
  | terminateWorker
deriving DecidableEq, Repr

/-- Embedding of `DuckityClient.solve` (`duckity.ts` lines 22-33) as the exact
sequence of worker-affecting actions it performs: construct a new dedicated
`Worker`, post the request `{domain, appId, profileCode}`, and return
`waitForMessage(worker)`. No other action on the worker occurs on any path; in
particular `worker.terminate()` is never called. -/
def facadeSolveActions (client : DuckityClient) (appId profileCode : String) :
    List FacadeAction :=
  [FacadeAction.createWorker,
   FacadeAction.post ⟨client.domain, appId, profileCode⟩,
   FacadeAction.awaitResponse]

/-- Whether the dedicated worker is alive after a list of facade actions:
`new Worker(...)` brings it up, only `worker.terminate()` brings it down. -/
def workerAliveAfter (acts : List FacadeAction) : Bool :=
  acts.foldl
    (fun alive a =>
      match a with
      | FacadeAction.createWorker => true
      | FacadeAction.terminateWorker => false
      | _ => alive)
    false

/-- Count of worker creations in a facade action list. -/
def createCount (acts : List FacadeAction) : Nat :=
  acts.countP fun a => a = FacadeAction.createWorker

/-- Count of worker terminations in a facade action list. -/
def terminateCount (acts : List FacadeAction) : Nat :=
  acts.countP fun a => a = FacadeAction.terminateWorker

/-! ## Wasm initialization glue (`src/wasm/pkg/duckity.js` lines 708-755) -/

/-- The module-level `wasm` variable of `duckity.js` line 1: `undefined`
(`none`) until the first successful initialization stores the instantiated
module's exports (represented by a natural identifier). -/
structure WasmState where
  wasm : Option Nat
deriving DecidableEq, Repr

/-- Result of an init call: the returned module, the module-level state
afterwards, and whether a fresh WebAssembly instantiation was performed. -/
structure InitResult where
  module : Nat
  state : WasmState
  instantiated : Bool
deriving DecidableEq, Repr

/-- Embedding of `initSync` (`duckity.js` lines 708-729): if `wasm` is already
defined it returns it immediately; otherwise it instantiates the module
(represented by the `instantiate` parameter, standing for
`new WebAssembly.Instance(...)`) and `__wbg_finalize_init` stores it. -/
def initSync (instantiate : Nat) (s : WasmState) : InitResult :=
  match s.wasm with
  | some w => ⟨w, s, false⟩
  | none => ⟨instantiate, ⟨some instantiate⟩, true⟩

/-- Embedding of the default-export `__wbg_init` (`duckity.js` lines 731-755):
the same guard — if `wasm` is already defined it resolves with it immediately;
otherwise it loads and instantiates the module and `__wbg_finalize_init`
stores it. -/
def wbgInit (instantiate : Nat) (s : WasmState) : InitResult :=
  match s.wasm with
  | some w => ⟨w, s, false⟩
  | none => ⟨instantiate, ⟨some instantiate⟩, true⟩

/-! ## Engine lemmas -/

/-- A candidate returned by the search satisfies the difficulty predicate. -/
theorem searchAux_some_sat (d : List Nat → List Nat) (s : List Nat) (df : Nat) :
    ∀ fuel cand p n, searchAux d s df cand fuel = (some p, n) →
      satisfiesDifficulty (d (s ++ proofBytes p)) df = true := by
  intro fuel
  induction fuel with
  | zero =>
    intro cand p n h
    simp [searchAux] at h
  | succ f ih =>
    intro cand p n h
    simp only [searchAux] at h
    split at h
    case isTrue hs =>
      injection h with h1 h2
      injection h1 with h1
      subst h1
      exact hs
    case isFalse hs =>
      rcases hr : searchAux d s df (cand + 1) f with ⟨r1, r2⟩
      rw [hr] at h
      simp only [Prod.mk.injEq] at h
      exact ih (cand + 1) p r2 (by rw [hr, h.1])

/-- When every candidate within the fuel fails the predicate, the search
exhausts exactly its fuel and finds nothing. -/
theorem searchAux_none_of_unsat (d : List Nat → List Nat) (s : List Nat)
    (df : Nat) :
    ∀ fuel cand,
      (∀ k, k < fuel →
        satisfiesDifficulty (d (s ++ proofBytes (cand + k))) df = false) →
      searchAux d s df cand fuel = (none, fuel) := by
  intro fuel
  induction fuel with
  | zero =>
    intro cand _
    simp [searchAux]
  | succ f ih =>
    intro cand h
    have h0 : satisfiesDifficulty (d (s ++ proofBytes cand)) df = false := by
      simpa using h 0 (Nat.succ_pos f)
    have hrec := ih (cand + 1) (fun k hk => by
      have harith : cand + 1 + k = cand + (k + 1) := by omega
      rw [harith]
      exact h (k + 1) (Nat.succ_lt_succ hk))
    simp only [searchAux]
    rw [if_neg (by simp [h0])]
    show ((searchAux d s df (cand + 1) f).1,
      (searchAux d s df (cand + 1) f).2 + 1) = (none, f + 1)
    rw [hrec]

/-! ## Claim theorems: the puzzle engine -/

/-- C1. Every Solution produced by `solve` verifies: its proof `P` makes
`digest(seed ++ P)` satisfy the challenge's difficulty, and the Solution
references the Challenge it was constructed from. (Engine modelled from the
spec; the wasm binary implementing `Challenge.solve` is not in the sources.) -/
theorem solve_ok_verifies (digest : List Nat → List Nat)
    (maxAttempts now : Nat) (c : Challenge) (sol : Solution)
    (h : (solve digest maxAttempts now c).result = Except.ok sol) :
    verify digest c sol.proof = true ∧ sol.sourceChallenge = c := by
  have main :
      (match searchAux digest c.seed c.difficulty 0 maxAttempts with
        | (some p, n) => (⟨Except.ok ⟨p, c⟩, n⟩ : SolveOutcome)
        | (none, n) => ⟨Except.error SolveError.unsatisfiable, n⟩).result
        = Except.ok sol →
      verify digest c sol.proof = true ∧ sol.sourceChallenge = c := by
    intro hrun
    rcases hr : searchAux digest c.seed c.difficulty 0 maxAttempts with ⟨o, n⟩
    rw [hr] at hrun
    cases o with
    | none => exact absurd hrun (by simp)
    | some p =>
      have hrun2 : Except.ok (⟨p, c⟩ : Solution) = Except.ok sol := hrun
      injection hrun2 with hsol
      subst hsol
      exact ⟨searchAux_some_sat digest c.seed c.difficulty maxAttempts 0 p n hr,
        rfl⟩
  simp only [solve] at h
  rcases hexp : c.expiresAt with - | e
  · simp only [hexp] at h
    exact main h
  · simp only [hexp] at h
    by_cases hlt : e < now
    · rw [if_pos hlt] at h
      exact absurd h (by simp)
    · rw [if_neg hlt] at h
      exact main h

/-- Witness for C1 at a concrete input: a constant-zero digest, the seed
`"abc"`, difficulty 8 and one allowed attempt; the solve succeeds with proof
0 and that Solution verifies. -/
theorem solve_ok_verifies_witness :
    verify (fun _ => [0]) ⟨[97, 98, 99], 8, "app-1", "profile-9", none⟩ 0
      = true ∧
    (⟨0, ⟨[97, 98, 99], 8, "app-1", "profile-9", none⟩⟩ : Solution).sourceChallenge
      = ⟨[97, 98, 99], 8, "app-1", "profile-9", none⟩ :=
  solve_ok_verifies (fun _ => [0]) 1 0
    ⟨[97, 98, 99], 8, "app-1", "profile-9", none⟩
    ⟨0, ⟨[97, 98, 99], 8, "app-1", "profile-9", none⟩⟩ rfl

/-- C4. A Challenge whose validity window has passed when solving starts
fails with `Expired` and performs no search work: zero digest attempts.
(Engine modelled from the spec.) -/
theorem solve_expired_no_work (digest : List Nat → List Nat)
    (maxAttempts now : Nat) (c : Challenge) (e : Nat)
    (hexp : c.expiresAt = some e) (hlt : e < now) :
    solve digest maxAttempts now c
      = ⟨Except.error SolveError.expired, 0⟩ := by
  simp only [solve, hexp]
  rw [if_pos hlt]

/-- Witness for C4 at a concrete input: a challenge that expired at time 3,
solved at time 10, fails with `Expired` after zero attempts. -/
theorem solve_expired_no_work_witness :
    solve (fun _ => []) 5 10 ⟨[1], 4, "a", "p", some 3⟩
      = ⟨Except.error SolveError.expired, 0⟩ :=
  solve_expired_no_work (fun _ => []) 5 10 ⟨[1], 4, "a", "p", some 3⟩ 3 rfl
    (by decide)

/-- C5. When no candidate below the configured attempt cap satisfies the
difficulty, `solve` terminates after exactly `maxAttempts` digest attempts
and fails with `Unsatisfiable`. (Engine modelled from the spec.) -/
theorem solve_unsatisfiable_bounded (digest : List Nat → List Nat)
    (maxAttempts now : Nat) (c : Challenge)
    (hexp : ∀ e, c.expiresAt = some e → ¬ e < now)
    (huns : ∀ k, k < maxAttempts →
      satisfiesDifficulty (digest (c.seed ++ proofBytes k)) c.difficulty
        = false) :
    solve digest maxAttempts now c
      = ⟨Except.error SolveError.unsatisfiable, maxAttempts⟩ := by
  have hs := searchAux_none_of_unsat digest c.seed c.difficulty maxAttempts 0
    (fun k hk => by simpa using huns k hk)
  rcases he : c.expiresAt with - | e
  · simp only [solve, hs, he]
  · simp only [solve, hs, he]
    rw [if_neg (hexp e he)]

/-- Witness for C5 at a concrete input: a constant-0xFF digest can never have
a leading zero bit, so difficulty 1 is unsatisfiable; with a cap of 3 the
solve fails with `Unsatisfiable` after exactly 3 attempts. -/
theorem solve_unsatisfiable_bounded_witness :
    solve (fun _ => [255]) 3 0 ⟨[], 1, "a", "p", none⟩
      = ⟨Except.error SolveError.unsatisfiable, 3⟩ :=
  solve_unsatisfiable_bounded (fun _ => [255]) 3 0 ⟨[], 1, "a", "p", none⟩
    (fun e h => nomatch h) (by decide)

/-! ## Encoding lemmas -/

/-- Every character the 6-bit group map produces is in the URL-safe
alphabet. -/
theorem b64Char_mem (n : Nat) : b64Char n ∈ b64Alphabet := by
  by_cases h : n < b64Alphabet.length
  · rw [b64Char, List.getD_eq_getElem _ _ h]
    exact List.getElem_mem h
  · rw [b64Char, List.getD_eq_default _ _ (Nat.le_of_not_lt h)]
    decide

/-- Every character of an encoded byte sequence is in the URL-safe
alphabet. -/
theorem b64urlEncode_mem (l : List Nat) :
    ∀ ch ∈ b64urlEncode l, ch ∈ b64Alphabet := by
  induction l using b64urlEncode.induct with
  | case1 =>
    intro ch hch
    simp [b64urlEncode] at hch
  | case2 a =>
    intro ch hch
    simp only [b64urlEncode, List.mem_cons, List.not_mem_nil, or_false] at hch
    rcases hch with rfl | rfl <;> exact b64Char_mem _
  | case3 a b =>
    intro ch hch
    simp only [b64urlEncode, List.mem_cons, List.not_mem_nil, or_false] at hch
    rcases hch with rfl | rfl | rfl <;> exact b64Char_mem _
  | case4 a b c rest ih =>
    intro ch hch
    simp only [b64urlEncode, List.mem_cons] at hch
    rcases hch with rfl | rfl | rfl | rfl | hch
    · exact b64Char_mem _
    · exact b64Char_mem _
    · exact b64Char_mem _
    · exact b64Char_mem _
    · exact ih ch hch

/-- Encoding a nonempty byte sequence yields a nonempty character list. -/
theorem b64urlEncode_ne_nil (l : List Nat) (h : l ≠ []) :
    b64urlEncode l ≠ [] := by
  match l with
  | [] => exact absurd rfl h
  | [a] => simp [b64urlEncode]
  | [a, b] => simp [b64urlEncode]
  | a :: b :: c :: rest => simp [b64urlEncode]

/-- The serialized layout always contains the 8 proof bytes, so it is never
empty. -/
theorem serialize_ne_nil (s : Solution) : serialize s ≠ [] := by
  simp [serialize, proofBytes]

/-- Length of the unpadded base64 encoding: the ceiling of `4n/3`. -/
theorem b64urlEncode_length (l : List Nat) :
    (b64urlEncode l).length = (4 * l.length + 2) / 3 := by
  induction l using b64urlEncode.induct with
  | case1 => simp [b64urlEncode]
  | case2 a => simp [b64urlEncode]
  | case3 a b => simp [b64urlEncode]
  | case4 a b c rest ih =>
    simp only [b64urlEncode, List.length_cons, ih]
    omega

/-! ## Claim theorems: solution encoding -/

/-- C6. `encode` is deterministic: it depends only on the (Challenge, proof)
pair, so two Solutions with the same source Challenge and the same proof
encode to identical token strings. (Encoding modelled from the spec; the wasm
binary implementing `Solution.encode` is not in the sources.) -/
theorem encode_deterministic (s t : Solution)
    (hc : s.sourceChallenge = t.sourceChallenge) (hp : s.proof = t.proof) :
    encode s = encode t := by
  cases s
  cases t
  cases hc
  cases hp
  rfl

/-- Witness for C6 at a concrete input: two separately constructed Solutions
over the same challenge and proof encode identically. -/
theorem encode_deterministic_witness :
    encode ⟨5, ⟨[1, 2], 4, "app-1", "profile-9", none⟩⟩
      = encode ⟨5, ⟨[1, 2], 4, "app-1", "profile-9", none⟩⟩ :=
  encode_deterministic ⟨5, ⟨[1, 2], 4, "app-1", "profile-9", none⟩⟩
    ⟨5, ⟨[1, 2], 4, "app-1", "profile-9", none⟩⟩ rfl rfl

/-- C7. Every constructed Solution encodes to a non-empty token over the
URL-safe base64 alphabet with no padding: every character is in the alphabet
and none is `+`, `/` or `=`. (Encoding modelled from the spec.) -/
theorem encode_urlsafe (s : Solution) :
    encode s ≠ "" ∧ ∀ ch ∈ (encode s).data,
      ch ∈ b64Alphabet ∧ ch ≠ '+' ∧ ch ≠ '/' ∧ ch ≠ '=' := by
  constructor
  · intro hEq
    apply b64urlEncode_ne_nil (serialize s) (serialize_ne_nil s)
    have hdata : (encode s).data = "".data := by rw [hEq]
    exact hdata
  · intro ch hch
    have hm : ch ∈ b64Alphabet := b64urlEncode_mem (serialize s) ch hch
    have hplus : ('+' : Char) ∉ b64Alphabet := by decide
    have hslash : ('/' : Char) ∉ b64Alphabet := by decide
    have hpad : ('=' : Char) ∉ b64Alphabet := by decide
    exact ⟨hm, fun h => hplus (h ▸ hm), fun h => hslash (h ▸ hm),
      fun h => hpad (h ▸ hm)⟩

/-- Witness for C7 at a concrete input: the first character of a concrete
token is in the alphabet and is none of the excluded characters. -/
theorem encode_urlsafe_witness :
    (encode ⟨0, ⟨[0], 8, "a", "p", none⟩⟩ ≠ "") ∧
      ('A' ∈ b64Alphabet ∧ 'A' ≠ '+' ∧ 'A' ≠ '/' ∧ 'A' ≠ '=') :=
  ⟨(encode_urlsafe ⟨0, ⟨[0], 8, "a", "p", none⟩⟩).1,
    (encode_urlsafe ⟨0, ⟨[0], 8, "a", "p", none⟩⟩).2 'A' (by decide)⟩

/-- C8. `raw_size` is the byte length of the pre-encoding serialized form,
and the encoded token's length is exactly the unpadded base64 expansion of
`raw_size`: `ceil(4 * raw_size / 3)`. (Encoding modelled from the spec.) -/
theorem raw_size_expansion (s : Solution) :
    raw_size s = (serialize s).length ∧
      (encode s).length = (4 * raw_size s + 2) / 3 := by
  refine ⟨rfl, ?_⟩
  show (b64urlEncode (serialize s)).length = (4 * (serialize s).length + 2) / 3
  exact b64urlEncode_length (serialize s)

/-! ## Claim theorems: worker protocol, facade, initialization -/

/-- C9. The domain configured on a client influences only which challenge the
transport fetch returns, never the search: when two clients with different
domains obtain the same Challenge (same seed and difficulty), the worker
pipeline produces identical outcomes for both. (`worker.ts` lines 14-22:
`challenge.solve()` takes no domain input; engine modelled from the spec.) -/
theorem domain_irrelevant_to_search (digest : List Nat → List Nat)
    (maxAttempts now : Nat)
    (fetchChallenge : String → String → String → Except String Challenge)
    (d1 d2 appId profileCode : String) (c : Challenge)
    (h1 : fetchChallenge d1 appId profileCode = Except.ok c)
    (h2 : fetchChallenge d2 appId profileCode = Except.ok c) :
    workerPipeline digest maxAttempts now fetchChallenge
        ⟨d1, appId, profileCode⟩
      = workerPipeline digest maxAttempts now fetchChallenge
        ⟨d2, appId, profileCode⟩ := by
  simp only [workerPipeline, h1, h2]

/-- Witness for C9 at a concrete input: a fetch that returns the same
challenge for the hosted and a self-hosted domain yields identical pipeline
results. -/
theorem domain_irrelevant_to_search_witness :
    workerPipeline (fun _ => [0]) 1 0
        (fun _ _ _ => Except.ok ⟨[97, 98, 99], 8, "app-1", "profile-9", none⟩)
        ⟨"quack.duckity.dev", "app-1", "profile-9"⟩
      = workerPipeline (fun _ => [0]) 1 0
        (fun _ _ _ => Except.ok ⟨[97, 98, 99], 8, "app-1", "profile-9", none⟩)
        ⟨"quack.example.com", "app-1", "profile-9"⟩ :=
  domain_irrelevant_to_search (fun _ => [0]) 1 0
    (fun _ _ _ => Except.ok ⟨[97, 98, 99], 8, "app-1", "profile-9", none⟩)
    "quack.duckity.dev" "quack.example.com" "app-1" "profile-9"
    ⟨[97, 98, 99], 8, "app-1", "profile-9", none⟩ rfl rfl

/-- C2, divergence at a failing input. When the pipeline inside the worker's
`async` `onmessage` handler fails (here: the challenge fetch rejects), no
event reaches the parent `Worker` object, so the promise returned by
`waitForMessage` stays pending forever — no response, and in particular no
rejection, is ever delivered, contradicting the claimed exactly-once delivery
of a token or structured error. On success exactly one `message` event is
delivered and the promise resolves once with the encoded token. -/
theorem worker_failure_leaves_promise_pending :
    offloadResult (fun _ => [0]) 1 0 (fun _ _ _ => Except.error "TransportError")
        ⟨"quack.duckity.dev", "app-1", "profile-9"⟩
      = PromiseState.pending ∧
    offloadResult (fun _ => [0]) 1 0
        (fun _ _ _ => Except.ok ⟨[97, 98, 99], 8, "app-1", "profile-9", none⟩)
        ⟨"quack.duckity.dev", "app-1", "profile-9"⟩
      = PromiseState.resolved
          (encode ⟨0, ⟨[97, 98, 99], 8, "app-1", "profile-9", none⟩⟩) := by
  exact ⟨rfl, rfl⟩

/-- C3, counterexample. After a completed solve round trip the dedicated
worker created by `DuckityClient.solve` is still alive: the facade
(`duckity.ts` lines 22-33) never calls `worker.terminate()` on any path, so
the claim that the worker is torn down on every exit path fails already on
the success path at this concrete input. -/
theorem facade_worker_left_alive :
    workerAliveAfter (facadeSolveActions DuckityClient.new "app-1" "profile-9")
      = true := rfl

/-- C3, amended. Each non-blocking solve creates exactly one dedicated worker
and shares it with no other invocation, but the worker is never torn down:
the facade performs no terminate action, and the worker remains alive after
its solve completes. -/
theorem facade_no_teardown (client : DuckityClient)
    (appId profileCode : String) :
    createCount (facadeSolveActions client appId profileCode) = 1 ∧
      terminateCount (facadeSolveActions client appId profileCode) = 0 ∧
      workerAliveAfter (facadeSolveActions client appId profileCode) = true :=
  ⟨rfl, rfl, rfl⟩

/-- C10. Wasm initialization is idempotent: after any successful
initialization (via either entry point), every further call to `initSync` or
to the default-export init returns the already-stored module unchanged,
performs no new WebAssembly instantiation, and leaves the module-level state
untouched — so the worker's repeated `await init()` on each message is safe
(`duckity.js` lines 708-755, `worker.ts` lines 9-11). -/
theorem init_idempotent (i j : Nat) (s : WasmState) :
    wbgInit j (wbgInit i s).state
        = ⟨(wbgInit i s).module, (wbgInit i s).state, false⟩ ∧
      initSync j (wbgInit i s).state
        = ⟨(wbgInit i s).module, (wbgInit i s).state, false⟩ ∧
      wbgInit j (initSync i s).state
        = ⟨(initSync i s).module, (initSync i s).state, false⟩ ∧
      initSync j (initSync i s).state
        = ⟨(initSync i s).module, (initSync i s).state, false⟩ := by
  rcases s with ⟨w⟩
  cases w <;> exact ⟨rfl, rfl, rfl, rfl⟩

end Duckity
